import Mathlib

/-!
Verification of `src/divide.cpp`, a command-line integer-division program:

```cpp
int divide(int x, int y) {
  return x / y;
}

int main(int argc, char** argv) {
  if (argc != 3) {
    printf("Two integer arguments required\n");
    return -1;
  }
  int x = std::stoi(argv[1]);
  int y = std::stoi(argv[2]);
  int z = divide(x, y);
  printf("%d / %d = %d\n", x, y, z);
}
```

The shallow embedding models C `int` values as mathematical integers
constrained to the 32-bit two's-complement range, C `/` on `int` as
truncating (toward-zero) division `Int.tdiv`, `std::stoi` as a partial
parsing function returning `Option Int`, and the whole process as a
function from the argument list (the `argv` entries after the program
name) to an observable behaviour: either normal termination with a list
of printed stdout lines and an exit code, an abort due to an uncaught
`std::stoi` exception, or undefined behaviour of the division.
-/

namespace DivideCpp

/-- Smallest value of the C `int` type (32-bit two's complement). -/
def intMin : Int := -(2 ^ 31)

/-- Largest value of the C `int` type (32-bit two's complement). -/
def intMax : Int := 2 ^ 31 - 1

/-- A mathematical integer is representable in the C `int` type. -/
def representable (n : Int) : Prop := intMin ≤ n ∧ n ≤ intMax

instance (n : Int) : Decidable (representable n) :=
  inferInstanceAs (Decidable (intMin ≤ n ∧ n ≤ intMax))

/-- Embedding of `int divide(int x, int y) { return x / y; }` at the values
where C integer division is defined: C `/` on `int` truncates toward zero,
which is `Int.tdiv`. -/
def divide (x y : Int) : Int := Int.tdiv x y

/-- Total embedding of the C division expression `x / y` on `int`:
`none` on the two undefined-behaviour cases of C integer division,
division by zero and a quotient that does not fit in `int`
(for in-range operands only `INT_MIN / -1`). -/
def divideTotal (x y : Int) : Option Int :=
  if y = 0 then none
  else if representable (divide x y) then some (divide x y) else none

/-- ASCII decimal digit test, as used by `std::stoi` via `strtol`. -/
def isAsciiDigit (c : Char) : Bool := '0' ≤ c && c ≤ '9'

/-- Whitespace characters skipped by `std::stoi` via `strtol` / `isspace`
in the default C locale: space, \t, \n, \v, \f, \r. -/
def isSpaceChar (c : Char) : Bool :=
  c = ' ' || c = '\t' || c = '\n' || c = '\r' ||
  c = Char.ofNat 11 || c = Char.ofNat 12

/-- Consume an optional leading sign, returning whether the value is
negated and the remaining characters, as `strtol` does. -/
def splitSign : List Char → Bool × List Char
  | '-' :: cs => (true, cs)
  | '+' :: cs => (false, cs)
  | cs => (false, cs)

/-- Numeric value of a list of decimal digit characters. -/
def digitsToNat (ds : List Char) : Nat :=
  ds.foldl (fun a c => 10 * a + (c.toNat - '0'.toNat)) 0

/-- Embedding of `std::stoi(s)` (base 10): skip leading whitespace, read an
optional sign and then the longest prefix of decimal digits, ignore any
trailing characters. Returns `none` where the call throws: no digits found
(`std::invalid_argument`) or converted value outside the `int` range
(`std::out_of_range`). -/
def stoi (s : String) : Option Int :=
  let cs := s.toList.dropWhile isSpaceChar
  let p := splitSign cs
  let ds := p.2.takeWhile isAsciiDigit
  if ds = [] then none
  else
    let v : Int := if p.1 then -(digitsToNat ds : Int) else (digitsToNat ds : Int)
    if representable v then some v else none

/-- Observable behaviour of one process invocation: normal termination
with the list of lines printed to stdout (each `printf` in the source ends
in a newline, so stdout is a list of complete lines) and the value
returned from `main`, or an abort from an uncaught `std::stoi` exception,
or undefined behaviour reached in `divide`. -/
inductive ProgBehavior where
  | terminated : List String → Int → ProgBehavior
  | parseAbort : ProgBehavior
  | undefinedBehavior : ProgBehavior
deriving DecidableEq

/-- The usage line printed by `printf("Two integer arguments required\n")`. -/
def usageMessage : String := "Two integer arguments required"

/-- The success line printed by `printf("%d / %d = %d\n", x, y, z)`. -/
def resultLine (x y z : Int) : String :=
  toString x ++ " / " ++ toString y ++ " = " ++ toString z

/-- Embedding of `main`. `args` is the argument list after the program
name, so `argc != 3` is `args.length ≠ 2`. `main` falls off its end after
the final `printf`, which in C++ returns 0. -/
def mainRun (args : List String) : ProgBehavior :=
  match args with
  | [a, b] =>
    match stoi a with
    | none => .parseAbort
    | some x =>
      match stoi b with
      | none => .parseAbort
      | some y =>
        match divideTotal x y with
        | none => .undefinedBehavior
        | some z => .terminated [resultLine x y z] 0
  | _ => .terminated [usageMessage] (-1)

/-- Exit status of the process as observed by a conventional POSIX parent:
the low 8 bits of the value returned from `main`. -/
def observedStatus (code : Int) : Nat := (Int.emod code 256).toNat

/-- The process environment, modelled alongside the argument list. The
source program never reads it (`main` uses only `argc` and `argv`), so the
embedding takes it as an explicit parameter and the body does not consult
it. -/
def mainRunWithEnv (_env : List (String × String)) (args : List String) : ProgBehavior :=
  mainRun args

/-- Modelled from the spec: the set of argument texts the spec calls
"valid base-10 signed integers" — an optional sign followed by one or more
decimal digits, nothing else, with the value in the `int` range. Used only
to compare the spec's notion of validity with the code's `std::stoi`. -/
def specValidIntegerText (s : String) : Bool :=
  let p := splitSign s.toList
  let ds := p.2
  decide (ds ≠ []) && ds.all isAsciiDigit &&
    decide (representable (if p.1 then -(digitsToNat ds : Int) else (digitsToNat ds : Int)))

/-! Helper lemmas shared by the claim theorems. -/

/-- Truncating division decomposed as product of signs times the quotient of
magnitudes: this is exactly "round the exact quotient toward zero". -/
theorem tdiv_eq_sign_mul (x y : Int) :
    Int.tdiv x y = Int.sign x * Int.sign y * ((Int.natAbs x / Int.natAbs y : Nat) : Int) := by
  rcases x with (_ | m) | m <;> rcases y with (_ | n) | n
  · rfl
  · show (Int.ofNat (0 / (n + 1)) : Int) = 0 * 1 * ((0 / (n + 1) : Nat) : Int)
    simp
  · show -(Int.ofNat (0 / (n + 1)) : Int) = 0 * -1 * ((0 / (n + 1) : Nat) : Int)
    simp
  · show (Int.ofNat ((m + 1) / 0) : Int) = 1 * 0 * (((m + 1) / 0 : Nat) : Int)
    simp
  · show (Int.ofNat ((m + 1) / (n + 1)) : Int) = 1 * 1 * (((m + 1) / (n + 1) : Nat) : Int)
    simp
  · show -(Int.ofNat ((m + 1) / (n + 1)) : Int) = 1 * -1 * (((m + 1) / (n + 1) : Nat) : Int)
    simp
  · show -(Int.ofNat ((m + 1) / 0) : Int) = -1 * 0 * (((m + 1) / 0 : Nat) : Int)
    simp
  · show -(Int.ofNat ((m + 1) / (n + 1)) : Int) = -1 * 1 * (((m + 1) / (n + 1) : Nat) : Int)
    simp
  · show (Int.ofNat ((m + 1) / (n + 1)) : Int) = -1 * -1 * (((m + 1) / (n + 1) : Nat) : Int)
    simp

/-- Among in-range operands with nonzero divisor, the only pair whose
truncated quotient leaves the `int` range is `(INT_MIN, -1)`. -/
theorem tdiv_overflow_unique (x y : Int) (hx : representable x) (hy : representable y)
    (hy0 : y ≠ 0) (h : ¬ representable (divide x y)) : x = intMin ∧ y = -1 := by
  have habs : (divide x y).natAbs = x.natAbs / y.natAbs := Int.natAbs_tdiv x y
  have hle : x.natAbs / y.natAbs ≤ x.natAbs := Nat.div_le_self _ _
  have hxa : x.natAbs ≤ 2 ^ 31 := by
    unfold representable intMin intMax at hx; omega
  have hq : divide x y = 2 ^ 31 := by
    unfold representable intMin intMax at h
    omega
  have hqa : x.natAbs / y.natAbs = 2 ^ 31 := by
    rw [← habs, hq]; decide
  have hy1 : y.natAbs = 1 := by
    by_contra hy1
    have hyn0 : y.natAbs ≠ 0 := by
      intro h0
      exact hy0 (Int.natAbs_eq_zero.mp h0)
    have hy2 : 2 ≤ y.natAbs := by omega
    have h2 : x.natAbs / y.natAbs ≤ x.natAbs / 2 := Nat.div_le_div_left hy2 (by omega)
    have h3 : x.natAbs / 2 ≤ 2 ^ 31 / 2 := Nat.div_le_div_right hxa
    omega
  have hxabs : x.natAbs = 2 ^ 31 := by
    rw [hy1, Nat.div_one] at hqa; exact hqa
  have hxv : x = intMin := by
    have hx2 := hx
    unfold representable intMin intMax at hx2
    unfold intMin
    omega
  have hyv : y = 1 ∨ y = -1 := by omega
  rcases hyv with h1 | h1
  · subst h1
    rw [show divide x 1 = x from Int.tdiv_one x] at h
    exact absurd hx h
  · exact ⟨hxv, h1⟩

/-- With any argument count other than two, `main` prints the usage line and
returns -1, whatever the arguments contain. -/
theorem main_wrong_count_eq (args : List String) (h : args.length ≠ 2) :
    mainRun args = ProgBehavior.terminated [usageMessage] (-1) := by
  rcases args with _ | ⟨a, _ | ⟨b, _ | ⟨c, rest⟩⟩⟩
  · rfl
  · rfl
  · exact absurd rfl h
  · rfl

/-- With two parseable arguments, nonzero divisor and representable
quotient, `main` prints the result line and returns 0. -/
theorem main_success_eq (a b : String) (x y : Int) (ha : stoi a = some x)
    (hb : stoi b = some y) (hy : y ≠ 0) (hrep : representable (divide x y)) :
    mainRun [a, b] = ProgBehavior.terminated [resultLine x y (divide x y)] 0 := by
  have hdt : divideTotal x y = some (divide x y) := by
    simp [divideTotal, hy, hrep]
  simp [mainRun, ha, hb, hdt]

/-! Claim theorems. -/

/-- Claim C1: for integers x and y with y nonzero, `divide x y` is the
truncating (toward-zero) quotient of x by y — its value is the product of
the operands' signs with the quotient of their magnitudes — and in
particular 7 / 2 = 3, -7 / 2 = -3 and 7 / -2 = -3. -/
theorem divide_truncates_toward_zero (x y : Int) (_hy : y ≠ 0) :
    divide x y = Int.sign x * Int.sign y * ((Int.natAbs x / Int.natAbs y : Nat) : Int) ∧
    divide 7 2 = 3 ∧ divide (-7) 2 = -3 ∧ divide 7 (-2) = -3 :=
  ⟨tdiv_eq_sign_mul x y, by decide, by decide, by decide⟩

/-- Witness for C1 at x = 7, y = 2. -/
theorem divide_truncates_toward_zero_witness :
    divide 7 2 = Int.sign 7 * Int.sign 2 * ((Int.natAbs 7 / Int.natAbs 2 : Nat) : Int) ∧
    divide 7 2 = 3 ∧ divide (-7) 2 = -3 ∧ divide 7 (-2) = -3 :=
  divide_truncates_toward_zero 7 2 (by decide)

/-- Claim C2: on two valid integer arguments whose second parses to 0, the
division is reached with no guard: the guarded branch of the total
embedding fires (`divideTotal x 0 = none`), the run is undefined
behaviour, and the program neither reports an error nor prints a normal
result (it terminates with no defined output or exit code at all). -/
theorem div_by_zero_reaches_guard (a b : String) (x : Int)
    (ha : stoi a = some x) (hb : stoi b = some 0) :
    divideTotal x 0 = none ∧
    mainRun [a, b] = ProgBehavior.undefinedBehavior ∧
    ∀ out : List String, ∀ code : Int, mainRun [a, b] ≠ ProgBehavior.terminated out code := by
  have h1 : divideTotal x 0 = none := by simp [divideTotal]
  have h2 : mainRun [a, b] = ProgBehavior.undefinedBehavior := by
    simp [mainRun, ha, hb, h1]
  refine ⟨h1, h2, ?_⟩
  intro out code hc
  rw [h2] at hc
  exact ProgBehavior.noConfusion hc

/-- Witness for C2 at arguments ("10", "0"). -/
theorem div_by_zero_reaches_guard_witness :
    divideTotal 10 0 = none ∧
    mainRun ["10", "0"] = ProgBehavior.undefinedBehavior ∧
    ∀ out : List String, ∀ code : Int,
      mainRun ["10", "0"] ≠ ProgBehavior.terminated out code :=
  div_by_zero_reaches_guard "10" "0" 10 (by decide) (by decide)

/-- Claim C3: whenever the argument count differs from two, the program
prints exactly the one usage line "Two integer arguments required",
returns the nonzero status -1, and produces nothing that depends on the
argument contents (the result is the same fixed behaviour for every such
argument list). -/
theorem wrong_arg_count_usage (args : List String) (h : args.length ≠ 2) :
    mainRun args = ProgBehavior.terminated [usageMessage] (-1) ∧ (-1 : Int) ≠ 0 :=
  ⟨main_wrong_count_eq args h, by decide⟩

/-- Witness for C3 at the one-argument list ["10"]. -/
theorem wrong_arg_count_usage_witness :
    mainRun ["10"] = ProgBehavior.terminated [usageMessage] (-1) ∧ (-1 : Int) ≠ 0 :=
  wrong_arg_count_usage ["10"] (by decide)

/-- Claim C4: with exactly two arguments parsing to in-range integers x
and y, y nonzero and the quotient representable, the program prints
exactly the one line "x / y = z" with z the truncated quotient, and
returns 0. -/
theorem valid_args_print_result (a b : String) (x y : Int)
    (ha : stoi a = some x) (hb : stoi b = some y) (hy : y ≠ 0)
    (hrep : representable (divide x y)) :
    mainRun [a, b] = ProgBehavior.terminated [resultLine x y (divide x y)] 0 :=
  main_success_eq a b x y ha hb hy hrep

/-- Witness for C4 at arguments ("10", "3"). -/
theorem valid_args_print_result_witness :
    mainRun ["10", "3"] = ProgBehavior.terminated [resultLine 10 3 (divide 10 3)] 0 :=
  valid_args_print_result "10" "3" 10 3 (by decide) (by decide) (by decide) (by decide)

/-- Claim C5: on the argument list ("10", "3") the program prints
"10 / 3 = 3" and exits with status 0, and on ("-10", "3") it prints
"-10 / 3 = -3" and exits with status 0. -/
theorem scenario_ten_three :
    mainRun ["10", "3"] = ProgBehavior.terminated ["10 / 3 = 3"] 0 ∧
    mainRun ["-10", "3"] = ProgBehavior.terminated ["-10 / 3 = -3"] 0 :=
  ⟨by decide, by decide⟩

/-- Counterexample to claim C6: the argument "10abc" is not a valid
base-10 integer text, yet `std::stoi` parses its digit prefix and the
invocation ("10abc", "3") does print a result line, so it is not true
that every invocation carrying a non-valid-integer argument aborts with
nothing printed. -/
theorem junk_suffix_parses_counterexample :
    specValidIntegerText "10abc" = false ∧
    stoi "10abc" = some 10 ∧
    mainRun ["10abc", "3"] = ProgBehavior.terminated ["10 / 3 = 3"] 0 :=
  ⟨by decide, by decide, by decide⟩

/-- Claim C6 as amended: when exactly two arguments are present and
`std::stoi` fails on one of them (no digits after optional whitespace and
sign, or a value outside the `int` range), the program aborts from the
uncaught exception: no result line and no usage message is printed.
Arguments whose text merely carries trailing non-numeric characters after
a valid integer prefix are parsed to that prefix and do not abort. -/
theorem stoi_failure_aborts (a b : String) (h : stoi a = none ∨ stoi b = none) :
    mainRun [a, b] = ProgBehavior.parseAbort ∧
    ∀ out : List String, ∀ code : Int, mainRun [a, b] ≠ ProgBehavior.terminated out code := by
  have h1 : mainRun [a, b] = ProgBehavior.parseAbort := by
    rcases h with h | h
    · simp [mainRun, h]
    · rcases hsa : stoi a with _ | x
      · simp [mainRun, hsa]
      · simp [mainRun, hsa, h]
  refine ⟨h1, ?_⟩
  intro out code hc
  rw [h1] at hc
  exact ProgBehavior.noConfusion hc

/-- Witness for the amended C6 at arguments ("abc", "3"). -/
theorem stoi_failure_aborts_witness :
    mainRun ["abc", "3"] = ProgBehavior.parseAbort ∧
    ∀ out : List String, ∀ code : Int,
      mainRun ["abc", "3"] ≠ ProgBehavior.terminated out code :=
  stoi_failure_aborts "abc" "3" (Or.inl (by decide))

/-- Counterexample to claim C7: on the two-valid-integer invocation
("10", "0") the division is undefined behaviour, so the run does not
terminate with exit code zero (or any defined exit code): y = 0 cannot be
included among the exit-code-zero cases. -/
theorem div_zero_not_exit_zero_counterexample :
    stoi "10" = some 10 ∧ stoi "0" = some 0 ∧
    mainRun ["10", "0"] = ProgBehavior.undefinedBehavior ∧
    ∀ out : List String, mainRun ["10", "0"] ≠ ProgBehavior.terminated out 0 := by
  have h2 : mainRun ["10", "0"] = ProgBehavior.undefinedBehavior := by decide
  refine ⟨by decide, by decide, h2, ?_⟩
  intro out hc
  rw [h2] at hc
  exact ProgBehavior.noConfusion hc

/-- Claim C7 as amended: every two-valid-integer-argument invocation that
reaches the print — that is, with y nonzero and the quotient
representable — terminates with exit code zero; the y = 0 case never
reaches the print, its behaviour being undefined. -/
theorem reaches_print_exit_zero (a b : String) (x y : Int)
    (ha : stoi a = some x) (hb : stoi b = some y) (hy : y ≠ 0)
    (hrep : representable (divide x y)) :
    ∃ out : List String, mainRun [a, b] = ProgBehavior.terminated out 0 :=
  ⟨[resultLine x y (divide x y)], main_success_eq a b x y ha hb hy hrep⟩

/-- Witness for the amended C7 at arguments ("10", "3"). -/
theorem reaches_print_exit_zero_witness :
    ∃ out : List String, mainRun ["10", "3"] = ProgBehavior.terminated out 0 :=
  reaches_print_exit_zero "10" "3" 10 3 (by decide) (by decide) (by decide) (by decide)

/-- Claim C8: the divisor-nonzero precondition does not exclude the pair
x = INT_MIN, y = -1, whose true quotient 2^31 is not representable in
`int` — and that pair is the only in-range pair with nonzero divisor whose
quotient overflows. -/
theorem intmin_div_neg_one_overflows :
    (-1 : Int) ≠ 0 ∧
    divide intMin (-1) = 2 ^ 31 ∧
    ¬ representable (divide intMin (-1)) ∧
    ∀ x y : Int, representable x → representable y → y ≠ 0 →
      ¬ representable (divide x y) → x = intMin ∧ y = -1 :=
  ⟨by decide, by decide, by decide, tdiv_overflow_unique⟩

/-- Witness for C8, applying its uniqueness part at x = INT_MIN, y = -1. -/
theorem intmin_div_neg_one_overflows_witness :
    intMin = intMin ∧ (-1 : Int) = -1 :=
  intmin_div_neg_one_overflows.2.2.2 intMin (-1) (by decide) (by decide) (by decide) (by decide)

/-- Claim C9: on wrong argument count `main` returns specifically -1, which
a conventional POSIX parent observes as exit status 255 after the 8-bit
truncation. -/
theorem wrong_arg_count_returns_neg_one (args : List String) (h : args.length ≠ 2) :
    mainRun args = ProgBehavior.terminated [usageMessage] (-1) ∧
    observedStatus (-1) = 255 :=
  ⟨main_wrong_count_eq args h, by decide⟩

/-- Witness for C9 at the empty argument list. -/
theorem wrong_arg_count_returns_neg_one_witness :
    mainRun [] = ProgBehavior.terminated [usageMessage] (-1) ∧
    observedStatus (-1) = 255 :=
  wrong_arg_count_returns_neg_one [] (by decide)

/-- Claim C10: the program is deterministic and depends on nothing but the
argument list: two runs with identical argument lists, under arbitrary
(possibly different) environments, print identical bytes and exit with
identical statuses. -/
theorem deterministic_same_args (e1 e2 : List (String × String))
    (args1 args2 : List String) (h : args1 = args2) :
    mainRunWithEnv e1 args1 = mainRunWithEnv e2 args2 := by
  subst h
  rfl

/-- Witness for C10 at the argument list ("10", "3") and two different
environments. -/
theorem deterministic_same_args_witness :
    mainRunWithEnv [] ["10", "3"] = mainRunWithEnv [("HOME", "/root")] ["10", "3"] :=
  deterministic_same_args [] [("HOME", "/root")] ["10", "3"] ["10", "3"] rfl

end DivideCpp
